import Mathlib

/-
Shallow embedding of the containerized-data-importer data-import pipeline
(phase engine, convert stage, resize stage, capacity reconciliation helper),
of the test harness around it (mock data provider, fake qemu operations,
scoped global overrides), and of the admission webhook's DataVolumeSpec
validation, together with theorems about the specified behaviour.

The excerpted sources contain the tests of the phase engine
(pkg/importer/data-processor_test.go) and the validating webhook
(pkg/apiserver/webhooks/validating-webhook/validating-webhook.go).
Definitions taken from those files are translated directly; the engine
itself (ProcessData, convert, resize, ResizeImage) is not part of the
excerpt and is modelled from the specification, as marked on each
definition.
-/

/-
ProcessingPhase is a string-valued enumeration in the source
(a loosely-typed string type with named constants), so a handler can
return a value outside the known set.  We keep it as String.
-/
abbrev ProcessingPhase := String

def ProcessingPhaseInfo : ProcessingPhase := "Info"
def ProcessingPhaseTransferScratch : ProcessingPhase := "TransferScratch"
def ProcessingPhaseTransferDataDir : ProcessingPhase := "TransferDataDir"
def ProcessingPhaseTransferDataFile : ProcessingPhase := "TransferDataFile"
def ProcessingPhaseProcess : ProcessingPhase := "Process"
def ProcessingPhaseConvert : ProcessingPhase := "Convert"
def ProcessingPhaseResize : ProcessingPhase := "Resize"
def ProcessingPhaseComplete : ProcessingPhase := "Complete"
def ProcessingPhaseError : ProcessingPhase := "Error"

/-
Go errors compared by identity.  The stable sentinels of the error taxonomy
are distinct constructors; wrapped causes keep the underlying error.
-/
inductive GoError where
  | ErrInvalidPath : GoError
  | ErrRequiresScratchSpace : GoError
  | unknownPhase (phase : String) : GoError
  | imageValidationFailed (cause : GoError) : GoError
  | wrap (msg : String) (cause : GoError) : GoError
  | msg (s : String) : GoError
deriving DecidableEq

/- ImgInfo, the probed image metadata value type (pkg/image). -/
structure ImgInfo where
  Format : String
  BackingFile : String
  VirtualSize : Int
  ActualSize : Int
deriving DecidableEq

/- From data-processor_test.go: the pair a fake Info probe returns. -/
structure fakeInfoOpRetVal where
  imgInfo : Option ImgInfo
  e : Option GoError
deriving DecidableEq

/-
From data-processor_test.go: a canned QEMUOperations implementation.
resource.Quantity values are modelled as Int byte counts.
-/
structure fakeQEMUOperations where
  e2 : Option GoError
  e3 : Option GoError
  ret4 : fakeInfoOpRetVal
  e5 : Option GoError
  e6 : Option GoError
  resizeQuantity : Option Int
deriving DecidableEq

def fakeQEMUOperations.ConvertToRawStream (o : fakeQEMUOperations)
    (_url : Option String) (_dest : String) : Option GoError := o.e2

def fakeQEMUOperations.Validate (o : fakeQEMUOperations)
    (_url : Option String) (_availableSize : Int) : Option GoError := o.e5

def fakeQEMUOperations.Resize (o : fakeQEMUOperations)
    (_dest : String) (_size : Int) : Option GoError := o.e3

def fakeQEMUOperations.Info (o : fakeQEMUOperations)
    (_url : Option String) : Option ImgInfo × Option GoError :=
  (o.ret4.imgInfo, o.ret4.e)

def fakeQEMUOperations.CreateBlankImage (o : fakeQEMUOperations)
    (_dest : String) (_size : Int) : Option GoError := o.e6

def NewFakeQEMUOperations (e2 e3 : Option GoError) (ret4 : fakeInfoOpRetVal)
    (e5 e6 : Option GoError) (targetResize : Option Int) : fakeQEMUOperations :=
  ⟨e2, e3, ret4, e5, e6, targetResize⟩

def NewQEMUAllErrors : fakeQEMUOperations :=
  let e := GoError.msg "qemu should not be called from this test override with replaceQEMUOperations"
  NewFakeQEMUOperations (some e) (some e) ⟨none, some e⟩ (some e) (some e) none

/- Test constants from data-processor_test.go. -/
def SmallActualSize : Int := 1024
def SmallVirtualSize : Int := 1024
def fakeSmallImageInfo : ImgInfo :=
  { Format := "", BackingFile := "", VirtualSize := SmallVirtualSize, ActualSize := SmallActualSize }
def fakeZeroImageInfo : ImgInfo :=
  { Format := "", BackingFile := "", VirtualSize := 0, ActualSize := 0 }

/-
From data-processor_test.go: MockDataProvider.  Response fields are fixed
configuration; calledPhases, transferPath and transferFile record what the
engine asked of the provider.
-/
structure MockDataProvider where
  infoResponse : ProcessingPhase
  transferResponse : ProcessingPhase
  processResponse : ProcessingPhase
  url : Option String
  transferPath : String
  transferFile : String
  calledPhases : List ProcessingPhase
  needsScratch : Bool
deriving DecidableEq

def mkMock (i t p : ProcessingPhase) (ns : Bool) : MockDataProvider :=
  { infoResponse := i, transferResponse := t, processResponse := p,
    url := none, transferPath := "", transferFile := "", calledPhases := [], needsScratch := ns }

/- Mock Info: records the call, then answers with infoResponse. -/
def MockDataProvider.Info (m : MockDataProvider) :
    MockDataProvider × ProcessingPhase × Option GoError :=
  let m' := { m with calledPhases := m.calledPhases ++ [ProcessingPhaseInfo] }
  if m.infoResponse = ProcessingPhaseError then
    (m', ProcessingPhaseError, some (GoError.msg "Info errored"))
  else
    (m', m.infoResponse, none)

/- Mock Transfer: records infoResponse as the called phase and the path. -/
def MockDataProvider.Transfer (m : MockDataProvider) (path : String) :
    MockDataProvider × ProcessingPhase × Option GoError :=
  let m' := { m with calledPhases := m.calledPhases ++ [m.infoResponse], transferPath := path }
  if m.transferResponse = ProcessingPhaseError then
    if m.needsScratch then
      (m', ProcessingPhaseError, some GoError.ErrInvalidPath)
    else
      (m', ProcessingPhaseError, some (GoError.msg "Transfer errored"))
  else
    (m', m.transferResponse, none)

/- Mock TransferFile: records the call and the file name. -/
def MockDataProvider.TransferFile (m : MockDataProvider) (fileName : String) :
    MockDataProvider × ProcessingPhase × Option GoError :=
  let m' := { m with calledPhases := m.calledPhases ++ [ProcessingPhaseTransferDataFile],
                     transferFile := fileName }
  if m.transferResponse = ProcessingPhaseError then
    (m', ProcessingPhaseError, some (GoError.msg "TransferFile errored"))
  else
    (m', m.transferResponse, none)

/- Mock Process. -/
def MockDataProvider.Process (m : MockDataProvider) :
    MockDataProvider × ProcessingPhase × Option GoError :=
  let m' := { m with calledPhases := m.calledPhases ++ [ProcessingPhaseProcess] }
  if m.processResponse = ProcessingPhaseError then
    (m', ProcessingPhaseError, some (GoError.msg "Process errored"))
  else
    (m', m.processResponse, none)

def MockDataProvider.GetURL (m : MockDataProvider) : Option String := m.url

def MockDataProvider.Close (_m : MockDataProvider) : Option GoError := none

/-
Modelled from the spec: the environment visible to the resize stage.  The
working data directory may or may not exist as a filesystem directory
(it does not for block-device destinations); we carry the set of existing
directories explicitly.
-/
structure Env where
  existingDirs : List String
deriving DecidableEq

def dirExists (env : Env) (d : String) : Bool := env.existingDirs.contains d

/-
Modelled from the spec: DataProcessor state for one import job
(destination path, working data directory, scratch directory, requested
capacity string, cached available-space estimate).  data-processor.go is
not part of the excerpt.  The provider handle is passed to the engine
functions explicitly rather than stored.
-/
structure DataProcessor where
  dest : String
  dataDir : String
  scratchDataDir : String
  requestedImageSize : String
  availableSpace : Int
deriving DecidableEq

/- Modelled from the spec: construction of a single-use DataProcessor. -/
def NewDataProcessor (dest dataDir scratchDataDir requestedImageSize : String) : DataProcessor :=
  { dest := dest, dataDir := dataDir, scratchDataDir := scratchDataDir,
    requestedImageSize := requestedImageSize, availableSpace := 0 }

/-
Modelled from the spec: an approximation of resource.Quantity parsing
sufficient for integer capacity strings with a decimal or binary suffix,
returning a byte count.  An unparseable string yields none.
-/
def parseDigits : List Char → Nat → Option Nat
  | [], acc => some acc
  | c :: cs, acc => if c.isDigit then parseDigits cs (acc * 10 + (c.toNat - 48)) else none

def suffixMultiplier : String → Option Int
  | "" => some 1
  | "k" => some 1000
  | "M" => some 1000000
  | "G" => some 1000000000
  | "T" => some 1000000000000
  | "Ki" => some 1024
  | "Mi" => some (1024 * 1024)
  | "Gi" => some (1024 * 1024 * 1024)
  | "Ti" => some (1024 * 1024 * 1024 * 1024)
  | _ => none

def parseQuantity (s : String) : Option Int :=
  let cs := s.toList
  let digits := cs.takeWhile Char.isDigit
  let rest := cs.dropWhile Char.isDigit
  if digits = [] then none
  else
    match parseDigits digits 0, suffixMultiplier (String.mk rest) with
    | some n, some mult => some ((n : Int) * mult)
    | _, _ => none

/- A record of one call into the disk-tooling (qemu) contract. -/
inductive QemuCall where
  | convertCall (dest : String) : QemuCall
  | validateCall (availableSize : Int) : QemuCall
  | resizeCall (dest : String) (size : Int) : QemuCall
  | infoCall : QemuCall
  | createBlankCall : QemuCall
deriving DecidableEq

/-
Modelled from the spec: the engine's validation pass.  A failure of the
disk-tooling validate operation is wrapped as the "image validation
failed" sentinel with the underlying cause attached.
-/
def DataProcessor.validate (dp : DataProcessor) (q : fakeQEMUOperations)
    (url : Option String) : Option GoError × List QemuCall :=
  match q.Validate url dp.availableSpace with
  | some e => (some (GoError.imageValidationFailed e), [QemuCall.validateCall dp.availableSpace])
  | none => (none, [QemuCall.validateCall dp.availableSpace])

/-
Modelled from the spec: the Convert stage.  Validate the source against
the available-capacity estimate first; only on success stream-convert the
source to raw format in the working data directory.  Success yields phase
Resize; either failure yields phase Error with the cause attached.  The
probe operation is not consulted.
-/
def DataProcessor.convert (dp : DataProcessor) (q : fakeQEMUOperations)
    (url : Option String) : (ProcessingPhase × Option GoError) × List QemuCall :=
  match dp.validate q url with
  | (some e, log) => ((ProcessingPhaseError, some e), log)
  | (none, log) =>
    match q.ConvertToRawStream url dp.dataDir with
    | some e => ((ProcessingPhaseError, some (GoError.wrap "Conversion to Raw failed" e)),
                 log ++ [QemuCall.convertCall dp.dataDir])
    | none => ((ProcessingPhaseResize, none), log ++ [QemuCall.convertCall dp.dataDir])

/-
Modelled from the spec: the standalone capacity-reconciliation helper.
It probes the image, refuses a blank requested size, clamps the resize
target to the lesser of the requested size and the available total, and
is a no-op when the current logical size already equals the clamped
target.  An unparseable size corresponds to the MustParse failure.
-/
def ResizeImage (q : fakeQEMUOperations) (dest : String) (imageSize : String)
    (totalTargetSpace : Int) : Option GoError × List QemuCall :=
  match q.Info (some dest) with
  | (_, some e) => (some e, [QemuCall.infoCall])
  | (optInfo, none) =>
    if imageSize ≠ "" then
      match optInfo with
      | none => (some (GoError.msg "no image info"), [QemuCall.infoCall])
      | some info =>
        match parseQuantity imageSize with
        | none => (some (GoError.msg "unable to parse requested size"), [QemuCall.infoCall])
        | some newSize =>
          let minSize := min totalTargetSpace newSize
          if info.VirtualSize = minSize then (none, [QemuCall.infoCall])
          else
            match q.Resize dest minSize with
            | none => (none, [QemuCall.infoCall, QemuCall.resizeCall dest minSize])
            | some e => (some e, [QemuCall.infoCall, QemuCall.resizeCall dest minSize])
    else
      (some (GoError.msg "Image resize called with blank resize"), [QemuCall.infoCall])

/-
Modelled from the spec: the Resize stage.  A blank requested capacity
skips resizing; a missing working data directory (block-device
destination) skips resizing without invoking the disk-tooling contract;
otherwise the requested capacity is parsed and the disk-tooling resize
operation is invoked against the destination image with the target size,
yielding Complete on success and Error with the cause on failure.
-/
def DataProcessor.resize (dp : DataProcessor) (env : Env) (q : fakeQEMUOperations) :
    (ProcessingPhase × Option GoError) × List QemuCall :=
  if dp.requestedImageSize = "" then ((ProcessingPhaseComplete, none), [])
  else if dirExists env dp.dataDir then
    match parseQuantity dp.requestedImageSize with
    | none => ((ProcessingPhaseError, some (GoError.msg "unable to parse requested size")), [])
    | some target =>
      match q.Resize dp.dest target with
      | none => ((ProcessingPhaseComplete, none), [QemuCall.resizeCall dp.dest target])
      | some e => ((ProcessingPhaseError, some e), [QemuCall.resizeCall dp.dest target])
  else ((ProcessingPhaseComplete, none), [])

/-
Modelled from the spec: the fixed, documented file name inside the data
directory that TransferDataFile writes (a configuration input).
-/
def dataFile (dataDir : String) : String := dataDir ++ "/disk.img"

/- The outcome of one dispatch of the phase engine. -/
structure StepOut where
  phase : ProcessingPhase
  err : Option GoError
  m : MockDataProvider
  log : List QemuCall
deriving DecidableEq

/-
Modelled from the spec: one dispatch of the phase engine (the dispatch
table of the specification).  Info asks the provider; the transfer phases
ask the provider to transfer into the scratch directory, the working data
directory, or the data file; TransferScratch rewraps the provider's
"invalid transfer path" sentinel as the "scratch space required" sentinel;
TransferDataFile runs one additional validation pass when the provider
reports completion directly; Process asks the provider; Convert and
Resize run the corresponding stages; an unrecognized phase yields the
distinct "unknown phase" error.
-/
def processStep (q : fakeQEMUOperations) (env : Env) (dp : DataProcessor)
    (m : MockDataProvider) (phase : ProcessingPhase) : StepOut :=
  if phase = ProcessingPhaseInfo then
    match m.Info with
    | (m', p, e) => ⟨p, e, m', []⟩
  else if phase = ProcessingPhaseTransferScratch then
    match m.Transfer dp.scratchDataDir with
    | (m', p, e) =>
      if e = some GoError.ErrInvalidPath then
        ⟨p, some GoError.ErrRequiresScratchSpace, m', []⟩
      else ⟨p, e, m', []⟩
  else if phase = ProcessingPhaseTransferDataDir then
    match m.Transfer dp.dataDir with
    | (m', p, e) => ⟨p, e, m', []⟩
  else if phase = ProcessingPhaseTransferDataFile then
    match m.TransferFile (dataFile dp.dataDir) with
    | (m', p, e) =>
      if p = ProcessingPhaseComplete ∧ e = none then
        match dp.validate q m'.GetURL with
        | (ve, log) => ⟨p, ve, m', log⟩
      else ⟨p, e, m', []⟩
  else if phase = ProcessingPhaseProcess then
    match m.Process with
    | (m', p, e) => ⟨p, e, m', []⟩
  else if phase = ProcessingPhaseConvert then
    match dp.convert q m.GetURL with
    | ((p, e), log) => ⟨p, e, m, log⟩
  else if phase = ProcessingPhaseResize then
    match dp.resize env q with
    | ((p, e), log) => ⟨p, e, m, log⟩
  else
    ⟨ProcessingPhaseError, some (GoError.unknownPhase phase), m, []⟩

inductive RunOutcome where
  | finished (err : Option GoError) : RunOutcome
  | outOfFuel : RunOutcome
deriving DecidableEq

structure RunResult where
  outcome : RunOutcome
  m : MockDataProvider
  log : List QemuCall
  visited : List ProcessingPhase
deriving DecidableEq

/-
Modelled from the spec: the phase engine loop.  It dispatches the active
phase, transitions to the handler's reported next phase (or Error when the
handler reported an error), and stops on Complete or Error.  The fuel
argument bounds the number of dispatches observed; visited records the
phases dispatched, in order.
-/
def processLoop (q : fakeQEMUOperations) (env : Env) (dp : DataProcessor) :
    Nat → MockDataProvider → ProcessingPhase → Option GoError → List QemuCall →
    List ProcessingPhase → RunResult
  | 0, m, phase, err, log, disp =>
    if phase = ProcessingPhaseComplete ∨ phase = ProcessingPhaseError then
      ⟨RunOutcome.finished err, m, log, disp⟩
    else ⟨RunOutcome.outOfFuel, m, log, disp⟩
  | n + 1, m, phase, err, log, disp =>
    if phase = ProcessingPhaseComplete ∨ phase = ProcessingPhaseError then
      ⟨RunOutcome.finished err, m, log, disp⟩
    else
      let s := processStep q env dp m phase
      processLoop q env dp n s.m (if s.err.isSome then ProcessingPhaseError else s.phase)
        s.err (log ++ s.log) (disp ++ [phase])

/-
Modelled from the spec: ProcessData runs the full pipeline from Info to a
terminal phase.  The fuel equals the number of enumerated phases: per the
specification, a single pass never needs more dispatches than that.
-/
def DataProcessor.ProcessData (dp : DataProcessor) (q : fakeQEMUOperations)
    (env : Env) (m : MockDataProvider) : RunResult :=
  processLoop q env dp 9 m ProcessingPhaseInfo none [] []

/-
The position of a phase in the declared order; values outside the closed
enumeration sit between Resize and the terminal phases (they dispatch
once and then fail as Error).
-/
def phaseRank (p : ProcessingPhase) : Nat :=
  if p = ProcessingPhaseInfo then 0
  else if p = ProcessingPhaseTransferScratch then 1
  else if p = ProcessingPhaseTransferDataDir then 2
  else if p = ProcessingPhaseTransferDataFile then 3
  else if p = ProcessingPhaseProcess then 4
  else if p = ProcessingPhaseConvert then 5
  else if p = ProcessingPhaseResize then 6
  else if p = ProcessingPhaseComplete then 8
  else if p = ProcessingPhaseError then 9
  else 7

def phaseRankLt (a b : ProcessingPhase) : Prop := phaseRank a < phaseRank b

/-
From data-processor_test.go: the scoped override helpers swap the
process-wide qemuOperations / getAvailableSpaceBlockFunc variables, run a
body, and (via defer) restore the original value on every exit path of
the body, including a panic.  The two globals are gathered into one
record; the body observes the (possibly swapped) globals and finishes
either normally or by panicking.  The deferred restoration runs after the
body in either case, exactly as Go's defer does.
-/
structure TestGlobals (Q F : Type) where
  qemuOperations : Q
  getAvailableSpaceBlockFunc : F

inductive BodyOutcome where
  | normal : BodyOutcome
  | panicked (msg : String) : BodyOutcome
deriving DecidableEq

/-
From data-processor_test.go, replaceQEMUOperations: save the original,
swap in the replacement when it is non-nil (registering a deferred
restore), run the body, restore.
-/
def replaceQEMUOperations {Q F : Type} (replacement : Option Q)
    (f : TestGlobals Q F → BodyOutcome) (g : TestGlobals Q F) :
    BodyOutcome × TestGlobals Q F :=
  match replacement with
  | none => (f g, g)
  | some r =>
    let g' := { g with qemuOperations := r }
    (f g', { g' with qemuOperations := g.qemuOperations })

/-
From data-processor_test.go, replaceAvailableSpaceBlockFunc: save the
original, swap unconditionally (registering a deferred restore), run the
body, restore.
-/
def replaceAvailableSpaceBlockFunc {Q F : Type} (replacement : F)
    (f : TestGlobals Q F → BodyOutcome) (g : TestGlobals Q F) :
    BodyOutcome × TestGlobals Q F :=
  let g' := { g with getAvailableSpaceBlockFunc := replacement }
  (f g', { g' with getAvailableSpaceBlockFunc := g.getAvailableSpaceBlockFunc })

/-
From validating-webhook.go: the DataVolumeSpec data model.  A source is a
record of six optional variants; the PVC spec carries the accessModes list
and the "storage" resource request (a quantity modelled as an Int byte
count, absent when the map has no "storage" key).
-/
structure DataVolumeSourceHTTP where
  url : String
deriving DecidableEq

structure DataVolumeSourceS3 where
  url : String
deriving DecidableEq

structure DataVolumeSourcePVC where
  ns : String
  name : String
deriving DecidableEq

structure DataVolumeSourceUpload where
deriving DecidableEq

structure DataVolumeBlankImage where
deriving DecidableEq

structure DataVolumeSourceRegistry where
  url : String
deriving DecidableEq

structure DataVolumeSource where
  http : Option DataVolumeSourceHTTP
  s3 : Option DataVolumeSourceS3
  pvc : Option DataVolumeSourcePVC
  upload : Option DataVolumeSourceUpload
  blank : Option DataVolumeBlankImage
  registry : Option DataVolumeSourceRegistry
deriving DecidableEq

structure PVCSpec where
  accessModes : List String
  requestsStorage : Option Int
deriving DecidableEq

structure DataVolumeSpec where
  source : DataVolumeSource
  contentType : String
  pvc : Option PVCSpec
deriving DecidableEq

def DataVolumeKubeVirt : String := "kubevirt"
def DataVolumeArchive : String := "archive"
def ReadWriteOnce : String := "ReadWriteOnce"
def ReadOnlyMany : String := "ReadOnlyMany"
def ReadWriteMany : String := "ReadWriteMany"

/- metav1.StatusCause: type, message, and the field path. -/
structure StatusCause where
  causeType : String
  message : String
  fieldPath : String
deriving DecidableEq

/- k8sfield path Child followed by String(): dotted concatenation. -/
def fieldChild (f c : String) : String := f ++ "." ++ c

/-
From validating-webhook.go, validateSourceURL.  url.ParseRequestURI is
approximated by extracting the scheme before the first "://" marker; the
claims never exercise this branch, so only the shape matters.
-/
def urlScheme (s : String) : Option String :=
  match s.splitOn "://" with
  | scheme :: _ :: _ => if scheme = "" then none else some scheme
  | _ => none

def validateSourceURL (sourceURL : String) : String :=
  if sourceURL = "" then "source URL is empty"
  else
    match urlScheme sourceURL with
    | none => "Invalid source URL: " ++ sourceURL
    | some scheme =>
      if scheme ≠ "http" ∧ scheme ≠ "https" then "Invalid source URL scheme: " ++ sourceURL
      else ""

def pvcSourceMissingFields : Option DataVolumeSourcePVC → Bool
  | some p => p.ns == "" || p.name == ""
  | none => false

/-
From validating-webhook.go, validateDataVolumeSpec.  Each Go
`return causes` becomes `some [cause]`; a clean pass returns `some []`.
The result `none` marks the one place the Go code has no value: after
rejecting only accessModes lists with more than one entry it indexes
accessModes[0] unconditionally, which on an empty list is an
out-of-range panic at runtime.  GetClient() is modelled as nil (no
cluster client in the excerpt), so the cluster-dependent source-PVC
existence and clone checks are skipped, as they are in Go when the
client is nil.
-/
def validateDataVolumeSpec (fld : String) (spec : DataVolumeSpec) :
    Option (List StatusCause) :=
  if spec.source.http.isNone ∧ spec.source.s3.isNone ∧ spec.source.pvc.isNone ∧
     spec.source.upload.isNone ∧ spec.source.blank.isNone ∧ spec.source.registry.isNone then
    some [⟨"FieldValueInvalid", "Missing Data volume source", fieldChild fld "source"⟩]
  else if (spec.source.http.isSome ∧ (spec.source.s3.isSome ∨ spec.source.pvc.isSome ∨
            spec.source.upload.isSome ∨ spec.source.blank.isSome ∨ spec.source.registry.isSome)) ∨
          (spec.source.s3.isSome ∧ (spec.source.pvc.isSome ∨ spec.source.upload.isSome ∨
            spec.source.blank.isSome ∨ spec.source.registry.isSome)) ∨
          (spec.source.pvc.isSome ∧ (spec.source.upload.isSome ∨ spec.source.blank.isSome ∨
            spec.source.registry.isSome)) ∨
          (spec.source.upload.isSome ∧ (spec.source.blank.isSome ∨ spec.source.registry.isSome)) ∨
          (spec.source.blank.isSome ∧ spec.source.registry.isSome) then
    some [⟨"FieldValueInvalid", "Multiple Data volume sources", fieldChild fld "source"⟩]
  else
    let urlCause : Option StatusCause :=
      if spec.source.http.isSome ∨ spec.source.s3.isSome then
        let url := match spec.source.http with
          | some h => h.url
          | none =>
            match spec.source.s3 with
            | some s => s.url
            | none => ""
        let sourceType :=
          if spec.source.http.isSome then
            fieldChild (fieldChild (fieldChild fld "source") "HTTP") "url"
          else fieldChild (fieldChild (fieldChild fld "source") "S3") "url"
        let e := validateSourceURL url
        if e ≠ "" then
          some ⟨"FieldValueInvalid", fieldChild fld "source" ++ " " ++ e, sourceType⟩
        else none
      else none
    match urlCause with
    | some c => some [c]
    | none =>
      if spec.contentType ≠ "" ∧ spec.contentType ≠ DataVolumeKubeVirt ∧
         spec.contentType ≠ DataVolumeArchive then
        some [⟨"FieldValueInvalid",
               "ContentType not one of: " ++ DataVolumeKubeVirt ++ ", " ++ DataVolumeArchive,
               fieldChild fld "contentType"⟩]
      else if spec.source.blank.isSome ∧ spec.contentType = DataVolumeArchive then
        some [⟨"FieldValueInvalid", "SourceType cannot be blank and the contentType be archive",
               fieldChild fld "contentType"⟩]
      else if spec.source.registry.isSome ∧ spec.contentType ≠ "" ∧
              spec.contentType ≠ DataVolumeKubeVirt then
        some [⟨"FieldValueInvalid",
               "ContentType must be" ++ DataVolumeKubeVirt ++ "when Source is Registry",
               fieldChild fld "contentType"⟩]
      else if pvcSourceMissingFields spec.source.pvc then
        some [⟨"FieldValueInvalid",
               fieldChild (fieldChild fld "source") "PVC" ++ " source PVC is not valid",
               fieldChild (fieldChild fld "source") "PVC"⟩]
      else
        match spec.pvc with
        | none => some [⟨"FieldValueInvalid", "Missing Data volume PVC", fieldChild fld "PVC"⟩]
        | some pvcSpec =>
          match pvcSpec.requestsStorage with
          | some pvcSize =>
            if pvcSize = 0 ∨ pvcSize < 0 then
              some [⟨"FieldValueInvalid", "PVC size can not be equal or less than zero",
                     fieldChild (fieldChild (fieldChild (fieldChild fld "PVC") "resources")
                       "requests") "size"⟩]
            else
              let accessModes := pvcSpec.accessModes
              if accessModes.length > 1 then
                some [⟨"FieldValueInvalid", "PVC multiple accessModes",
                       fieldChild (fieldChild fld "PVC") "accessModes"⟩]
              else
                match accessModes with
                | [] => none
                | am :: _ =>
                  if am ≠ ReadWriteOnce ∧ am ≠ ReadOnlyMany ∧ am ≠ ReadWriteMany then
                    some [⟨"FieldValueInvalid",
                           "Unsupported value: " ++ am ++
                             ": supported values: ReadOnlyMany, ReadWriteMany, ReadWriteOnce",
                           fieldChild (fieldChild fld "PVC") "accessModes"⟩]
                  else some []
          | none =>
            some [⟨"FieldValueInvalid", "PVC size is missing",
                   fieldChild (fieldChild (fieldChild (fieldChild fld "PVC") "resources")
                     "requests") "size"⟩]

/-
The concrete DataVolumeSpec exercising the empty-accessModes path: exactly
one source set (upload), empty (hence valid) content type, a positive
storage request, and an empty accessModes list.
-/
def c10Spec : DataVolumeSpec :=
  { source := { http := none, s3 := none, pvc := none,
                upload := some {}, blank := none, registry := none },
    contentType := "",
    pvc := some { accessModes := [], requestsStorage := some 1 } }

/-
The phases whose handler delegates to the provider.  Convert and Resize
delegate to the disk tooling and record no provider call.
-/
def providerPhase (p : ProcessingPhase) : Bool :=
  p = ProcessingPhaseInfo || p = ProcessingPhaseTransferScratch ||
  p = ProcessingPhaseTransferDataDir || p = ProcessingPhaseTransferDataFile ||
  p = ProcessingPhaseProcess

/--
Claim C2: when the provider's Info declares TransferScratch and the
transfer fails with the "invalid transfer path" sentinel (needs-scratch
semantics), ProcessData returns exactly the ErrRequiresScratchSpace
sentinel (by constructor identity, not message comparison) and stops after
exactly the two recorded provider calls Info then TransferScratch.
-/
theorem c2_needs_scratch_sentinel
    (dest dataDir scratchDataDir size : String) (q : fakeQEMUOperations) :
    let dp := NewDataProcessor dest dataDir scratchDataDir size
    let r := dp.ProcessData q ⟨[]⟩
      (mkMock ProcessingPhaseTransferScratch ProcessingPhaseError ProcessingPhaseComplete true)
    r.outcome = RunOutcome.finished (some GoError.ErrRequiresScratchSpace) ∧
    r.m.calledPhases = [ProcessingPhaseInfo, ProcessingPhaseTransferScratch] ∧
    r.log = [] :=
  ⟨rfl, rfl, rfl⟩

/- Unfolding equations for the engine loop. -/
theorem processLoop_zero (q : fakeQEMUOperations) (env : Env) (dp : DataProcessor)
    (m : MockDataProvider) (phase : ProcessingPhase) (err : Option GoError)
    (log : List QemuCall) (disp : List ProcessingPhase) :
    processLoop q env dp 0 m phase err log disp =
      if phase = ProcessingPhaseComplete ∨ phase = ProcessingPhaseError then
        ⟨RunOutcome.finished err, m, log, disp⟩
      else ⟨RunOutcome.outOfFuel, m, log, disp⟩ := rfl

theorem processLoop_succ (q : fakeQEMUOperations) (env : Env) (dp : DataProcessor)
    (n : Nat) (m : MockDataProvider) (phase : ProcessingPhase) (err : Option GoError)
    (log : List QemuCall) (disp : List ProcessingPhase) :
    processLoop q env dp (n + 1) m phase err log disp =
      if phase = ProcessingPhaseComplete ∨ phase = ProcessingPhaseError then
        ⟨RunOutcome.finished err, m, log, disp⟩
      else
        let s := processStep q env dp m phase
        processLoop q env dp n s.m (if s.err.isSome then ProcessingPhaseError else s.phase)
          s.err (log ++ s.log) (disp ++ [phase]) := rfl

/- One engine dispatch of Info when the provider's answer is not Error. -/
theorem processStep_info (q : fakeQEMUOperations) (env : Env) (dp : DataProcessor)
    (m : MockDataProvider) (hne : m.infoResponse ≠ ProcessingPhaseError) :
    processStep q env dp m ProcessingPhaseInfo =
      ⟨m.infoResponse, none,
       { m with calledPhases := m.calledPhases ++ [ProcessingPhaseInfo] }, []⟩ := by
  simp [processStep, MockDataProvider.Info, hne]

/- One engine dispatch of a phase outside the closed enumeration. -/
theorem processStep_unknown (q : fakeQEMUOperations) (env : Env) (dp : DataProcessor)
    (m : MockDataProvider) (s : ProcessingPhase)
    (n1 : s ≠ ProcessingPhaseInfo) (n2 : s ≠ ProcessingPhaseTransferScratch)
    (n3 : s ≠ ProcessingPhaseTransferDataDir) (n4 : s ≠ ProcessingPhaseTransferDataFile)
    (n5 : s ≠ ProcessingPhaseProcess) (n6 : s ≠ ProcessingPhaseConvert)
    (n7 : s ≠ ProcessingPhaseResize) :
    processStep q env dp m s = ⟨ProcessingPhaseError, some (GoError.unknownPhase s), m, []⟩ := by
  simp [processStep, n1, n2, n3, n4, n5, n6, n7]

/--
Claim C3: when the provider's Info returns a phase value outside the
closed ProcessingPhase enumeration, ProcessData returns the distinct
"unknown phase" error after exactly one recorded provider call (Info
only); the unrecognized value is never given to any provider or
disk-tooling handler (no further provider call, empty tooling log).
-/
theorem c3_unknown_phase
    (dest dataDir scratchDataDir size s : String) (q : fakeQEMUOperations)
    (h : s ∉ [ProcessingPhaseInfo, ProcessingPhaseTransferScratch,
      ProcessingPhaseTransferDataDir, ProcessingPhaseTransferDataFile,
      ProcessingPhaseProcess, ProcessingPhaseConvert, ProcessingPhaseResize,
      ProcessingPhaseComplete, ProcessingPhaseError]) :
    let dp := NewDataProcessor dest dataDir scratchDataDir size
    let r := dp.ProcessData q ⟨[]⟩ (mkMock s ProcessingPhaseComplete ProcessingPhaseComplete false)
    r.outcome = RunOutcome.finished (some (GoError.unknownPhase s)) ∧
    r.m.calledPhases = [ProcessingPhaseInfo] ∧
    r.log = [] := by
  simp only [List.mem_cons, not_or] at h
  obtain ⟨h1, h2, h3, h4, h5, h6, h7, h8, h9, -⟩ := h
  have hrun : ∀ (m : MockDataProvider), m.infoResponse = s →
      processLoop q ⟨[]⟩ (NewDataProcessor dest dataDir scratchDataDir size) 9 m
        ProcessingPhaseInfo none [] [] =
      ⟨RunOutcome.finished (some (GoError.unknownPhase s)),
       { m with calledPhases := m.calledPhases ++ [ProcessingPhaseInfo] }, [],
       [ProcessingPhaseInfo, s]⟩ := by
    intro m hm
    subst hm
    rw [processLoop_succ, if_neg (by decide)]
    rw [processStep_info q ⟨[]⟩ (NewDataProcessor dest dataDir scratchDataDir size) m h9]
    simp only [Option.isSome_none, Bool.false_eq_true, if_false, List.nil_append,
      List.append_nil]
    rw [processLoop_succ, if_neg (not_or.mpr ⟨h8, h9⟩)]
    rw [processStep_unknown q ⟨[]⟩ (NewDataProcessor dest dataDir scratchDataDir size)
      _ _ h1 h2 h3 h4 h5 h6 h7]
    simp only [Option.isSome_some, if_pos, List.append_nil]
    rw [processLoop_succ, if_pos (Or.inr rfl)]
    rfl
  have hm0 : (mkMock s ProcessingPhaseComplete ProcessingPhaseComplete false).infoResponse = s := rfl
  refine ⟨?_, ?_, ?_⟩ <;>
    simp only [DataProcessor.ProcessData,
      hrun (mkMock s ProcessingPhaseComplete ProcessingPhaseComplete false) hm0] <;>
    simp [mkMock]

/--
Claim C3 witness: the unrecognized value "invalidphase" used by the test
suite satisfies the hypothesis and exhibits the behaviour.
-/
theorem c3_unknown_phase_witness :
    ("invalidphase" ∉ [ProcessingPhaseInfo, ProcessingPhaseTransferScratch,
      ProcessingPhaseTransferDataDir, ProcessingPhaseTransferDataFile,
      ProcessingPhaseProcess, ProcessingPhaseConvert, ProcessingPhaseResize,
      ProcessingPhaseComplete, ProcessingPhaseError]) ∧
    (let dp := NewDataProcessor "dest" "dataDir" "scratchDataDir" "1G"
     let r := dp.ProcessData NewQEMUAllErrors ⟨[]⟩
       (mkMock "invalidphase" ProcessingPhaseComplete ProcessingPhaseComplete false)
     r.outcome = RunOutcome.finished (some (GoError.unknownPhase "invalidphase")) ∧
     r.m.calledPhases = [ProcessingPhaseInfo] ∧
     r.log = []) :=
  ⟨by decide, c3_unknown_phase "dest" "dataDir" "scratchDataDir" "1G" "invalidphase"
    NewQEMUAllErrors (by decide)⟩

/--
Claim C4: when the provider's Info declares TransferDataFile and the
transfer call reports direct completion, the engine performs exactly one
additional validation call through the disk-tooling contract (the tooling
log is exactly one validate call, with the cached available-space
estimate): when that validation fails with cause e, ProcessData returns
the "image validation failed" sentinel wrapping e (distinguishable by
constructor identity) even though the transfer succeeded; when it
succeeds, ProcessData returns nil error after exactly the two recorded
provider calls Info then TransferDataFile.  The adapter's other responses
are arbitrary.
-/
theorem c4_transfer_data_file_validation
    (dest dataDir scratchDataDir size : String) (q : fakeQEMUOperations) :
    let dp := NewDataProcessor dest dataDir scratchDataDir size
    let r := dp.ProcessData q ⟨[]⟩
      (mkMock ProcessingPhaseTransferDataFile ProcessingPhaseComplete ProcessingPhaseComplete false)
    r.outcome = RunOutcome.finished (q.e5.map GoError.imageValidationFailed) ∧
    r.m.calledPhases = [ProcessingPhaseInfo, ProcessingPhaseTransferDataFile] ∧
    r.log = [QemuCall.validateCall 0] := by
  obtain ⟨e2, e3, ret4, e5, e6, rq⟩ := q
  cases e5 <;> exact ⟨rfl, rfl, rfl⟩

/--
Claim C5: the convert stage first invokes the disk-tooling validate
operation and, only when it succeeds, the convert operation: both
succeeding yields phase Resize with no error and both calls logged in
that order; a validate failure yields phase Error with the cause attached
(wrapped in the "image validation failed" sentinel) and the convert
operation is never attempted (no convert call in the log); a convert
failure yields phase Error with the cause attached.  The probe responses
in q.ret4 are arbitrary, so the result is independent of probe errors.
-/
theorem c5_convert_validate_then_convert
    (dp : DataProcessor) (url : Option String) (q : fakeQEMUOperations) :
    dp.convert q url =
      match q.e5 with
      | some e => ((ProcessingPhaseError, some (GoError.imageValidationFailed e)),
                   [QemuCall.validateCall dp.availableSpace])
      | none =>
        match q.e2 with
        | some e => ((ProcessingPhaseError, some (GoError.wrap "Conversion to Raw failed" e)),
                     [QemuCall.validateCall dp.availableSpace, QemuCall.convertCall dp.dataDir])
        | none => ((ProcessingPhaseResize, none),
                   [QemuCall.validateCall dp.availableSpace, QemuCall.convertCall dp.dataDir]) := by
  obtain ⟨e2, e3, ret4, e5, e6, rq⟩ := q
  cases e5 <;> cases e2 <;> rfl

/--
Claim C9: the scoped override helpers replaceQEMUOperations and
replaceAvailableSpaceBlockFunc leave the shared globals record equal to
its pre-call value on every exit path of the wrapped body — the body is
arbitrary and may finish normally or by panicking, and the deferred
restoration runs either way — so no permanent mutation of the swapped
global survives the call, and the body's outcome is surfaced unchanged.
-/
theorem c9_scoped_override_restores {Q F : Type} (replacement : Option Q) (replacementF : F)
    (body bodyF : TestGlobals Q F → BodyOutcome) (g : TestGlobals Q F) :
    (replaceQEMUOperations replacement body g).2 = g ∧
    (replaceAvailableSpaceBlockFunc replacementF bodyF g).2 = g ∧
    (replaceQEMUOperations replacement body g).1 =
      (match replacement with
       | none => body g
       | some r => body { g with qemuOperations := r }) ∧
    (replaceAvailableSpaceBlockFunc replacementF bodyF g).1 =
      bodyF { g with getAvailableSpaceBlockFunc := replacementF } := by
  refine ⟨?_, rfl, ?_, rfl⟩ <;> cases replacement <;> rfl

/--
Claim C10: on a DataVolumeSpec with exactly one source set (upload), a
valid (empty) content type, a PVC whose storage request is positive, and
an empty accessModes list, validateDataVolumeSpec returns no rejection
cause: having rejected only accessModes lists with more than one entry,
it indexes accessModes[0] unconditionally, and on the empty list the
embedding's error branch (Go's runtime index-out-of-range panic) is
reached.
-/
theorem c10_empty_access_modes_reaches_index_panic :
    validateDataVolumeSpec "spec" c10Spec = none := by rfl

/--
Claim C6: the resize phase handler returns Complete with zero disk-tooling
invocations when the requested capacity string is empty; returns Complete
with zero disk-tooling invocations when the working data directory does
not exist (block-device destination) even with a non-blank requested
capacity; and when the working data directory exists and a capacity is
requested (parsing to t), invokes the disk-tooling resize operation with
target t and returns Complete on its success and Error with the cause on
its failure.
-/
theorem c6_resize_phase_behavior (env : Env) (dp : DataProcessor) (q : fakeQEMUOperations) :
    (dp.requestedImageSize = "" → dp.resize env q = ((ProcessingPhaseComplete, none), [])) ∧
    (dirExists env dp.dataDir = false → dp.resize env q = ((ProcessingPhaseComplete, none), [])) ∧
    (∀ t : Int, dp.requestedImageSize ≠ "" → dirExists env dp.dataDir = true →
      parseQuantity dp.requestedImageSize = some t →
      dp.resize env q =
        match q.e3 with
        | none => ((ProcessingPhaseComplete, none), [QemuCall.resizeCall dp.dest t])
        | some e => ((ProcessingPhaseError, some e), [QemuCall.resizeCall dp.dest t])) := by
  refine ⟨?_, ?_, ?_⟩
  · intro h
    simp [DataProcessor.resize, h]
  · intro h
    by_cases hs : dp.requestedImageSize = ""
    · simp [DataProcessor.resize, hs]
    · simp [DataProcessor.resize, hs, h]
  · intro t h1 h2 h3
    simp only [DataProcessor.resize, h1, h2, h3, if_neg h1, if_true,
      fakeQEMUOperations.Resize]
    cases he : q.e3 <;> simp [he]

/--
Claim C6 witness: concrete instances exercising the blank-capacity skip,
the missing-data-directory skip, and the success/failure paths of the
tooling resize call.
-/
theorem c6_resize_phase_behavior_witness :
    (NewDataProcessor "dest" "dataDir" "scratchDataDir" "").resize ⟨["dataDir"]⟩ NewQEMUAllErrors
      = ((ProcessingPhaseComplete, none), []) ∧
    (NewDataProcessor "dest" "dataDir" "scratchDataDir" "1G").resize ⟨[]⟩ NewQEMUAllErrors
      = ((ProcessingPhaseComplete, none), []) ∧
    (NewDataProcessor "dest" "dataDir" "scratchDataDir" "1G").resize ⟨["dataDir"]⟩ NewQEMUAllErrors
      = ((ProcessingPhaseError,
          some (GoError.msg
            "qemu should not be called from this test override with replaceQEMUOperations")),
         [QemuCall.resizeCall "dest" 1000000000]) :=
  ⟨(c6_resize_phase_behavior ⟨["dataDir"]⟩ _ _).1 rfl,
   (c6_resize_phase_behavior ⟨[]⟩ _ _).2.1 rfl,
   (c6_resize_phase_behavior ⟨["dataDir"]⟩ _ _).2.2 1000000000 (by decide) (by decide) (by decide)⟩

/--
Claim C7: the standalone helper ResizeImage, for every non-blank
parseable requested size (parsing to n) on a successfully probed image:
when the current logical (virtual) size differs from the clamped target,
the single resize-tool invocation receives exactly min(total, n) — the
lesser of the requested size and the total available capacity — and the
helper's result is the tool's; when the current logical size already
equals the clamped target it succeeds with zero resize-tool invocations;
and for an empty requested size it reports an error for every adapter.
-/
theorem c7_resize_image_clamps_noop_blank
    (q : fakeQEMUOperations) (dest imageSize : String) (total n : Int) (info : ImgInfo)
    (hE : q.ret4.e = none) (hI : q.ret4.imgInfo = some info)
    (hP : parseQuantity imageSize = some n) (hB : imageSize ≠ "") :
    (ResizeImage q dest imageSize total =
      if info.VirtualSize = min total n then (none, [QemuCall.infoCall])
      else (q.e3, [QemuCall.infoCall, QemuCall.resizeCall dest (min total n)])) ∧
    (∀ (q2 : fakeQEMUOperations) (d2 : String) (t2 : Int),
      (ResizeImage q2 d2 "" t2).1.isSome = true) := by
  constructor
  · simp only [ResizeImage, fakeQEMUOperations.Info, hE, hI, hP, if_pos hB,
      fakeQEMUOperations.Resize]
    by_cases hv : info.VirtualSize = min total n
    · simp [hv]
    · simp only [hv, if_false]
      cases he : q.e3 <;> simp [he, hv]
  · intro q2 d2 t2
    obtain ⟨e2, e3, ⟨oi, oe⟩, e5, e6, rq⟩ := q2
    cases oe <;> rfl

/--
Claim C7 witness: the clamp case of the test table (requested 2500 above
the available total 2048, probed virtual size 1024) passes exactly 2048
to the resize tool, and a blank requested size errors on the all-errors
adapter.
-/
theorem c7_resize_image_clamps_noop_blank_witness :
    ResizeImage (NewFakeQEMUOperations none none ⟨some fakeSmallImageInfo, none⟩ none none
        (some 2048)) "dest" "2500" 2048
      = (none, [QemuCall.infoCall, QemuCall.resizeCall "dest" 2048]) ∧
    (ResizeImage NewQEMUAllErrors "dest" "" 2048).1.isSome = true := by
  have h := c7_resize_image_clamps_noop_blank
    (NewFakeQEMUOperations none none ⟨some fakeSmallImageInfo, none⟩ none none (some 2048))
    "dest" "2500" 2048 2500 fakeSmallImageInfo rfl rfl (by decide) (by decide)
  have h1 := h.1
  rw [if_neg (show ¬(fakeSmallImageInfo.VirtualSize = min (2048 : Int) 2500) by decide)] at h1
  exact ⟨h1, h.2 NewQEMUAllErrors "dest" 2048⟩

/- Distinctness of the enumerated phase constants, as needed to reduce
the engine's dispatch chain and terminal checks. -/
@[simp] theorem phNe_TransferScratch_Info : ProcessingPhaseTransferScratch ≠ ProcessingPhaseInfo := by decide
@[simp] theorem phNe_TransferDataDir_Info : ProcessingPhaseTransferDataDir ≠ ProcessingPhaseInfo := by decide
@[simp] theorem phNe_TransferDataDir_TransferScratch : ProcessingPhaseTransferDataDir ≠ ProcessingPhaseTransferScratch := by decide
@[simp] theorem phNe_TransferDataFile_Info : ProcessingPhaseTransferDataFile ≠ ProcessingPhaseInfo := by decide
@[simp] theorem phNe_TransferDataFile_TransferScratch : ProcessingPhaseTransferDataFile ≠ ProcessingPhaseTransferScratch := by decide
@[simp] theorem phNe_TransferDataFile_TransferDataDir : ProcessingPhaseTransferDataFile ≠ ProcessingPhaseTransferDataDir := by decide
@[simp] theorem phNe_Process_Info : ProcessingPhaseProcess ≠ ProcessingPhaseInfo := by decide
@[simp] theorem phNe_Process_TransferScratch : ProcessingPhaseProcess ≠ ProcessingPhaseTransferScratch := by decide
@[simp] theorem phNe_Process_TransferDataDir : ProcessingPhaseProcess ≠ ProcessingPhaseTransferDataDir := by decide
@[simp] theorem phNe_Process_TransferDataFile : ProcessingPhaseProcess ≠ ProcessingPhaseTransferDataFile := by decide
@[simp] theorem phNe_Convert_Info : ProcessingPhaseConvert ≠ ProcessingPhaseInfo := by decide
@[simp] theorem phNe_Convert_TransferScratch : ProcessingPhaseConvert ≠ ProcessingPhaseTransferScratch := by decide
@[simp] theorem phNe_Convert_TransferDataDir : ProcessingPhaseConvert ≠ ProcessingPhaseTransferDataDir := by decide
@[simp] theorem phNe_Convert_TransferDataFile : ProcessingPhaseConvert ≠ ProcessingPhaseTransferDataFile := by decide
@[simp] theorem phNe_Convert_Process : ProcessingPhaseConvert ≠ ProcessingPhaseProcess := by decide
@[simp] theorem phNe_Resize_Info : ProcessingPhaseResize ≠ ProcessingPhaseInfo := by decide
@[simp] theorem phNe_Resize_TransferScratch : ProcessingPhaseResize ≠ ProcessingPhaseTransferScratch := by decide
@[simp] theorem phNe_Resize_TransferDataDir : ProcessingPhaseResize ≠ ProcessingPhaseTransferDataDir := by decide
@[simp] theorem phNe_Resize_TransferDataFile : ProcessingPhaseResize ≠ ProcessingPhaseTransferDataFile := by decide
@[simp] theorem phNe_Resize_Process : ProcessingPhaseResize ≠ ProcessingPhaseProcess := by decide
@[simp] theorem phNe_Resize_Convert : ProcessingPhaseResize ≠ ProcessingPhaseConvert := by decide
@[simp] theorem phNe_Info_Complete : ProcessingPhaseInfo ≠ ProcessingPhaseComplete := by decide
@[simp] theorem phNe_Info_Error : ProcessingPhaseInfo ≠ ProcessingPhaseError := by decide
@[simp] theorem phNe_TransferScratch_Complete : ProcessingPhaseTransferScratch ≠ ProcessingPhaseComplete := by decide
@[simp] theorem phNe_TransferScratch_Error : ProcessingPhaseTransferScratch ≠ ProcessingPhaseError := by decide
@[simp] theorem phNe_TransferDataDir_Complete : ProcessingPhaseTransferDataDir ≠ ProcessingPhaseComplete := by decide
@[simp] theorem phNe_TransferDataDir_Error : ProcessingPhaseTransferDataDir ≠ ProcessingPhaseError := by decide
@[simp] theorem phNe_TransferDataFile_Complete : ProcessingPhaseTransferDataFile ≠ ProcessingPhaseComplete := by decide
@[simp] theorem phNe_TransferDataFile_Error : ProcessingPhaseTransferDataFile ≠ ProcessingPhaseError := by decide
@[simp] theorem phNe_Process_Complete : ProcessingPhaseProcess ≠ ProcessingPhaseComplete := by decide
@[simp] theorem phNe_Process_Error : ProcessingPhaseProcess ≠ ProcessingPhaseError := by decide
@[simp] theorem phNe_Convert_Complete : ProcessingPhaseConvert ≠ ProcessingPhaseComplete := by decide
@[simp] theorem phNe_Convert_Error : ProcessingPhaseConvert ≠ ProcessingPhaseError := by decide
@[simp] theorem phNe_Resize_Complete : ProcessingPhaseResize ≠ ProcessingPhaseComplete := by decide
@[simp] theorem phNe_Resize_Error : ProcessingPhaseResize ≠ ProcessingPhaseError := by decide
@[simp] theorem phNe_Error_Complete : ProcessingPhaseError ≠ ProcessingPhaseComplete := by decide
@[simp] theorem phNe_Complete_Error : ProcessingPhaseComplete ≠ ProcessingPhaseError := by decide

/- phaseRank evaluated at the enumerated constants. -/
@[simp] theorem phaseRank_Info : phaseRank ProcessingPhaseInfo = 0 := by decide
@[simp] theorem phaseRank_TransferScratch : phaseRank ProcessingPhaseTransferScratch = 1 := by decide
@[simp] theorem phaseRank_TransferDataDir : phaseRank ProcessingPhaseTransferDataDir = 2 := by decide
@[simp] theorem phaseRank_TransferDataFile : phaseRank ProcessingPhaseTransferDataFile = 3 := by decide
@[simp] theorem phaseRank_Process : phaseRank ProcessingPhaseProcess = 4 := by decide
@[simp] theorem phaseRank_Convert : phaseRank ProcessingPhaseConvert = 5 := by decide
@[simp] theorem phaseRank_Resize : phaseRank ProcessingPhaseResize = 6 := by decide
@[simp] theorem phaseRank_Complete : phaseRank ProcessingPhaseComplete = 8 := by decide
@[simp] theorem phaseRank_Error : phaseRank ProcessingPhaseError = 9 := by decide

/-
One engine dispatch from a non-terminal phase strictly increases the
phase rank whenever the provider's declared responses point strictly
forward in the declared order (transfer responses past every transfer
phase, process responses past Process, info responses past Info), and
dispatching never changes the provider's declared responses.
-/
theorem processStep_progress (q : fakeQEMUOperations) (env : Env) (dp : DataProcessor)
    (m : MockDataProvider) (phase : ProcessingPhase)
    (h1 : 1 ≤ phaseRank m.infoResponse) (h2 : 4 ≤ phaseRank m.transferResponse)
    (h3 : 5 ≤ phaseRank m.processResponse)
    (hc : ¬(phase = ProcessingPhaseComplete ∨ phase = ProcessingPhaseError)) :
    phaseRank phase <
      phaseRank (if (processStep q env dp m phase).err.isSome then ProcessingPhaseError
                 else (processStep q env dp m phase).phase) ∧
    (processStep q env dp m phase).m.infoResponse = m.infoResponse ∧
    (processStep q env dp m phase).m.transferResponse = m.transferResponse ∧
    (processStep q env dp m phase).m.processResponse = m.processResponse := by
  obtain ⟨hC, hE⟩ := not_or.mp hc
  by_cases hI : phase = ProcessingPhaseInfo
  · subst hI
    by_cases hr : m.infoResponse = ProcessingPhaseError
    · simp [processStep, MockDataProvider.Info, hr]
    · simp [processStep, MockDataProvider.Info, hr]
      omega
  · by_cases hTS : phase = ProcessingPhaseTransferScratch
    · subst hTS
      by_cases hT : m.transferResponse = ProcessingPhaseError
      · cases hN : m.needsScratch <;>
          simp [processStep, MockDataProvider.Transfer, hT, hN]
      · simp [processStep, MockDataProvider.Transfer, hT]
        omega
    · by_cases hTD : phase = ProcessingPhaseTransferDataDir
      · subst hTD
        by_cases hT : m.transferResponse = ProcessingPhaseError
        · cases hN : m.needsScratch <;>
            simp [processStep, MockDataProvider.Transfer, hT, hN]
        · simp [processStep, MockDataProvider.Transfer, hT]
          omega
      · by_cases hTF : phase = ProcessingPhaseTransferDataFile
        · subst hTF
          by_cases hT : m.transferResponse = ProcessingPhaseError
          · simp [processStep, MockDataProvider.TransferFile, hT]
          · by_cases hPC : m.transferResponse = ProcessingPhaseComplete
            · cases hv : q.e5 <;>
                simp [processStep, MockDataProvider.TransferFile, hT, hPC,
                  DataProcessor.validate, fakeQEMUOperations.Validate, hv]
            · simp [processStep, MockDataProvider.TransferFile, hT, hPC]
              omega
        · by_cases hP : phase = ProcessingPhaseProcess
          · subst hP
            by_cases hr : m.processResponse = ProcessingPhaseError
            · simp [processStep, MockDataProvider.Process, hr]
            · simp [processStep, MockDataProvider.Process, hr]
              omega
          · by_cases hCv : phase = ProcessingPhaseConvert
            · subst hCv
              cases hv : q.e5
              · cases hcv : q.e2 <;>
                  simp [processStep, DataProcessor.convert, DataProcessor.validate,
                    fakeQEMUOperations.Validate, fakeQEMUOperations.ConvertToRawStream, hv, hcv]
              · simp [processStep, DataProcessor.convert, DataProcessor.validate,
                  fakeQEMUOperations.Validate, hv]
            · by_cases hR : phase = ProcessingPhaseResize
              · subst hR
                by_cases hs : dp.requestedImageSize = ""
                · simp [processStep, DataProcessor.resize, hs]
                · by_cases hd : dirExists env dp.dataDir
                  · cases hp : parseQuantity dp.requestedImageSize
                    · simp [processStep, DataProcessor.resize, hs, hd, hp]
                    · cases hr3 : q.e3 <;>
                        simp [processStep, DataProcessor.resize, hs, hd, hp,
                          fakeQEMUOperations.Resize, hr3]
                  · simp [processStep, DataProcessor.resize, hs, hd]
              · have hrank : phaseRank phase = 7 := by
                  simp [phaseRank, hI, hTS, hTD, hTF, hP, hCv, hR, hC, hE]
                simp [processStep, hI, hTS, hTD, hTF, hP, hCv, hR, hrank]

theorem phaseRank_nonterminal (p : ProcessingPhase)
    (hc : ¬(p = ProcessingPhaseComplete ∨ p = ProcessingPhaseError)) : phaseRank p ≤ 7 := by
  obtain ⟨hC, hE⟩ := not_or.mp hc
  unfold phaseRank
  split_ifs <;> omega

/-
When every provider response points strictly forward in the declared
order, the engine loop reaches a terminal phase within the remaining
fuel and the trace of dispatched phases is strictly rank-increasing.
-/
theorem processLoop_forward (q : fakeQEMUOperations) (env : Env) (dp : DataProcessor) :
    ∀ (n : Nat) (m : MockDataProvider) (phase : ProcessingPhase) (err : Option GoError)
      (log : List QemuCall) (disp : List ProcessingPhase),
      1 ≤ phaseRank m.infoResponse → 4 ≤ phaseRank m.transferResponse →
      5 ≤ phaseRank m.processResponse → 9 ≤ n + phaseRank phase →
      List.Pairwise phaseRankLt disp → (∀ a ∈ disp, phaseRank a < phaseRank phase) →
      (processLoop q env dp n m phase err log disp).outcome ≠ RunOutcome.outOfFuel ∧
      List.Pairwise phaseRankLt (processLoop q env dp n m phase err log disp).visited := by
  intro n
  induction n with
  | zero =>
    intro m phase err log disp h1 h2 h3 hfuel hpw hlt
    by_cases hterm : phase = ProcessingPhaseComplete ∨ phase = ProcessingPhaseError
    · rw [processLoop_zero, if_pos hterm]
      exact ⟨by simp, hpw⟩
    · have := phaseRank_nonterminal phase hterm
      omega
  | succ n ih =>
    intro m phase err log disp h1 h2 h3 hfuel hpw hlt
    by_cases hterm : phase = ProcessingPhaseComplete ∨ phase = ProcessingPhaseError
    · rw [processLoop_succ, if_pos hterm]
      exact ⟨by simp, hpw⟩
    · rw [processLoop_succ, if_neg hterm]
      obtain ⟨hprog, p1, p2, p3⟩ := processStep_progress q env dp m phase h1 h2 h3 hterm
      dsimp only
      refine ih _ _ _ _ _ (by rw [p1]; exact h1) (by rw [p2]; exact h2) (by rw [p3]; exact h3)
        (by omega) ?_ ?_
      · rw [List.pairwise_append]
        refine ⟨hpw, List.pairwise_singleton _ _, ?_⟩
        intro a ha b hb
        rw [List.mem_singleton] at hb
        subst hb
        exact hlt a ha
      · intro a ha
        rw [List.mem_append, List.mem_singleton] at ha
        rcases ha with ha | ha
        · exact lt_trans (hlt a ha) hprog
        · subst ha
          exact hprog

/- Each loop iteration dispatches at most one phase. -/
theorem processLoop_visited_length (q : fakeQEMUOperations) (env : Env) (dp : DataProcessor) :
    ∀ (n : Nat) (m : MockDataProvider) (phase : ProcessingPhase) (err : Option GoError)
      (log : List QemuCall) (disp : List ProcessingPhase),
      (processLoop q env dp n m phase err log disp).visited.length ≤ disp.length + n := by
  intro n
  induction n with
  | zero =>
    intro m phase err log disp
    rw [processLoop_zero]
    split <;> simp
  | succ n ih =>
    intro m phase err log disp
    rw [processLoop_succ]
    split
    · simp
    · dsimp only
      refine le_trans (ih _ _ _ _ _) ?_
      simp
      omega

/--
Claim C8 counterexample: the claim quantifies over providers with
arbitrary phase responses, but a provider whose Info declares Info again
makes the engine dispatch the Info phase at every iteration: running
ProcessData (whose fuel is the number of enumerated phases, nine) the
engine is still not finished after nine dispatches, the dispatched trace
revisits Info nine times, and nine provider calls are recorded — so the
run neither terminates within the enumerated-phase bound nor avoids
revisiting a phase.
-/
theorem c8_arbitrary_provider_counterexample :
    let r := (NewDataProcessor "dest" "dataDir" "scratchDataDir" "1G").ProcessData
      NewQEMUAllErrors ⟨[]⟩
      (mkMock ProcessingPhaseInfo ProcessingPhaseComplete ProcessingPhaseComplete false)
    r.outcome = RunOutcome.outOfFuel ∧
    r.visited = [ProcessingPhaseInfo, ProcessingPhaseInfo, ProcessingPhaseInfo,
      ProcessingPhaseInfo, ProcessingPhaseInfo, ProcessingPhaseInfo, ProcessingPhaseInfo,
      ProcessingPhaseInfo, ProcessingPhaseInfo] ∧
    r.m.calledPhases.length = 9 :=
  ⟨rfl, rfl, rfl⟩

/--
Claim C8 (amended): for every provider whose declared responses move
strictly forward in the declared phase order (its info response ranks
after Info, its transfer response after every transfer phase, its process
response after Process), a single ProcessData invocation terminates
within fuel equal to the number of enumerated phases, the dispatched
phase trace is strictly increasing in the declared order, no phase is
ever revisited (the trace has no duplicates), and at most one handler
call happens per enumerated phase (at most nine dispatches in total).
-/
theorem c8_forward_provider_terminates (q : fakeQEMUOperations) (env : Env)
    (dp : DataProcessor) (m : MockDataProvider)
    (h1 : 1 ≤ phaseRank m.infoResponse) (h2 : 4 ≤ phaseRank m.transferResponse)
    (h3 : 5 ≤ phaseRank m.processResponse) :
    (dp.ProcessData q env m).outcome ≠ RunOutcome.outOfFuel ∧
    List.Pairwise phaseRankLt (dp.ProcessData q env m).visited ∧
    (dp.ProcessData q env m).visited.Nodup ∧
    (dp.ProcessData q env m).visited.length ≤ 9 := by
  have h := processLoop_forward q env dp 9 m ProcessingPhaseInfo none [] []
    h1 h2 h3 (by simp) List.Pairwise.nil (by intro a ha; cases ha)
  have hlen := processLoop_visited_length q env dp 9 m ProcessingPhaseInfo none [] []
  refine ⟨h.1, h.2, ?_, ?_⟩
  · exact h.2.imp (fun hab heq => absurd (heq ▸ hab) (lt_irrefl _))
  · simpa using hlen

/--
Claim C8 witness: the forward-declaring provider of the first engine test
(Info to TransferScratch to Process to Complete) satisfies the rank
hypotheses, terminates, and dispatches pairwise rank-increasing phases.
-/
theorem c8_forward_provider_terminates_witness :
    (1 ≤ phaseRank (mkMock ProcessingPhaseTransferScratch ProcessingPhaseProcess
        ProcessingPhaseComplete false).infoResponse ∧
     4 ≤ phaseRank (mkMock ProcessingPhaseTransferScratch ProcessingPhaseProcess
        ProcessingPhaseComplete false).transferResponse ∧
     5 ≤ phaseRank (mkMock ProcessingPhaseTransferScratch ProcessingPhaseProcess
        ProcessingPhaseComplete false).processResponse) ∧
    (((NewDataProcessor "dest" "dataDir" "scratchDataDir" "1G").ProcessData NewQEMUAllErrors ⟨[]⟩
        (mkMock ProcessingPhaseTransferScratch ProcessingPhaseProcess
          ProcessingPhaseComplete false)).outcome ≠ RunOutcome.outOfFuel ∧
     List.Pairwise phaseRankLt
       ((NewDataProcessor "dest" "dataDir" "scratchDataDir" "1G").ProcessData NewQEMUAllErrors ⟨[]⟩
         (mkMock ProcessingPhaseTransferScratch ProcessingPhaseProcess
           ProcessingPhaseComplete false)).visited ∧
     ((NewDataProcessor "dest" "dataDir" "scratchDataDir" "1G").ProcessData NewQEMUAllErrors ⟨[]⟩
         (mkMock ProcessingPhaseTransferScratch ProcessingPhaseProcess
           ProcessingPhaseComplete false)).visited.Nodup ∧
     ((NewDataProcessor "dest" "dataDir" "scratchDataDir" "1G").ProcessData NewQEMUAllErrors ⟨[]⟩
         (mkMock ProcessingPhaseTransferScratch ProcessingPhaseProcess
           ProcessingPhaseComplete false)).visited.length ≤ 9) :=
  ⟨⟨by decide, by decide, by decide⟩,
   c8_forward_provider_terminates NewQEMUAllErrors ⟨[]⟩
     (NewDataProcessor "dest" "dataDir" "scratchDataDir" "1G")
     (mkMock ProcessingPhaseTransferScratch ProcessingPhaseProcess ProcessingPhaseComplete false)
     (by decide) (by decide) (by decide)⟩

/- providerPhase evaluated at the enumerated constants. -/
@[simp] theorem providerPhase_Info : providerPhase ProcessingPhaseInfo = true := by decide
@[simp] theorem providerPhase_TransferScratch :
    providerPhase ProcessingPhaseTransferScratch = true := by decide
@[simp] theorem providerPhase_TransferDataDir :
    providerPhase ProcessingPhaseTransferDataDir = true := by decide
@[simp] theorem providerPhase_TransferDataFile :
    providerPhase ProcessingPhaseTransferDataFile = true := by decide
@[simp] theorem providerPhase_Process : providerPhase ProcessingPhaseProcess = true := by decide
@[simp] theorem providerPhase_Convert : providerPhase ProcessingPhaseConvert = false := by decide
@[simp] theorem providerPhase_Resize : providerPhase ProcessingPhaseResize = false := by decide

/-
One engine dispatch records exactly one provider call when the dispatched
phase is provider-backed (Info, the three transfers, Process), and none
otherwise (Convert, Resize, unrecognized values).
-/
theorem processStep_calls (q : fakeQEMUOperations) (env : Env) (dp : DataProcessor)
    (m : MockDataProvider) (phase : ProcessingPhase) :
    (processStep q env dp m phase).m.calledPhases.length =
      m.calledPhases.length + (if providerPhase phase then 1 else 0) := by
  by_cases hI : phase = ProcessingPhaseInfo
  · subst hI
    by_cases hr : m.infoResponse = ProcessingPhaseError <;>
      simp [processStep, MockDataProvider.Info, hr]
  · by_cases hTS : phase = ProcessingPhaseTransferScratch
    · subst hTS
      by_cases hT : m.transferResponse = ProcessingPhaseError
      · cases hN : m.needsScratch <;>
          simp [processStep, MockDataProvider.Transfer, hT, hN]
      · simp [processStep, MockDataProvider.Transfer, hT]
    · by_cases hTD : phase = ProcessingPhaseTransferDataDir
      · subst hTD
        by_cases hT : m.transferResponse = ProcessingPhaseError
        · cases hN : m.needsScratch <;>
            simp [processStep, MockDataProvider.Transfer, hT, hN]
        · simp [processStep, MockDataProvider.Transfer, hT]
      · by_cases hTF : phase = ProcessingPhaseTransferDataFile
        · subst hTF
          by_cases hT : m.transferResponse = ProcessingPhaseError
          · simp [processStep, MockDataProvider.TransferFile, hT]
          · by_cases hPC : m.transferResponse = ProcessingPhaseComplete
            · cases hv : q.e5 <;>
                simp [processStep, MockDataProvider.TransferFile, hT, hPC,
                  DataProcessor.validate, fakeQEMUOperations.Validate, hv]
            · simp [processStep, MockDataProvider.TransferFile, hT, hPC]
        · by_cases hP : phase = ProcessingPhaseProcess
          · subst hP
            by_cases hr : m.processResponse = ProcessingPhaseError <;>
              simp [processStep, MockDataProvider.Process, hr]
          · by_cases hCv : phase = ProcessingPhaseConvert
            · subst hCv
              simp [processStep]
            · by_cases hR : phase = ProcessingPhaseResize
              · subst hR
                simp [processStep]
              · simp [processStep, providerPhase, hI, hTS, hTD, hTF, hP, hCv, hR]

/-
Across the whole engine loop, the number of provider calls recorded grows
by exactly the number of provider-backed phases dispatched.
-/
theorem processLoop_calls (q : fakeQEMUOperations) (env : Env) (dp : DataProcessor) :
    ∀ (n : Nat) (m : MockDataProvider) (phase : ProcessingPhase) (err : Option GoError)
      (log : List QemuCall) (disp : List ProcessingPhase),
      (processLoop q env dp n m phase err log disp).m.calledPhases.length +
        (disp.filter providerPhase).length =
      m.calledPhases.length +
        ((processLoop q env dp n m phase err log disp).visited.filter providerPhase).length := by
  intro n
  induction n with
  | zero =>
    intro m phase err log disp
    rw [processLoop_zero]
    split <;> simp
  | succ n ih =>
    intro m phase err log disp
    rw [processLoop_succ]
    split
    · simp
    · dsimp only
      have hstep := processStep_calls q env dp m phase
      have hih := ih (processStep q env dp m phase).m
        (if (processStep q env dp m phase).err.isSome then ProcessingPhaseError
         else (processStep q env dp m phase).phase)
        (processStep q env dp m phase).err (log ++ (processStep q env dp m phase).log)
        (disp ++ [phase])
      rw [List.filter_append] at hih
      simp only [List.length_append] at hih
      by_cases hp : providerPhase phase
      · simp [hp] at hstep hih
        omega
      · simp only [Bool.not_eq_true] at hp
        simp [hp] at hstep hih
        omega

/--
Claim C1 counterexample: with a provider whose process handler declares
Convert and a clean adapter, ProcessData succeeds taking five phase
transitions (Info, TransferScratch, Process, Convert, Resize) while
recording only three provider calls — the Convert and Resize transitions
delegate to the disk tooling, not the provider — so the number of
provider calls recorded does not equal the number of phase transitions
taken.
-/
theorem c1_convert_routing_counterexample :
    let r := (NewDataProcessor "dest" "dataDir" "scratchDataDir" "1G").ProcessData
      (NewFakeQEMUOperations none none ⟨some fakeSmallImageInfo, none⟩ none none none) ⟨[]⟩
      (mkMock ProcessingPhaseTransferScratch ProcessingPhaseProcess ProcessingPhaseConvert false)
    r.outcome = RunOutcome.finished none ∧
    r.visited = [ProcessingPhaseInfo, ProcessingPhaseTransferScratch, ProcessingPhaseProcess,
      ProcessingPhaseConvert, ProcessingPhaseResize] ∧
    r.m.calledPhases = [ProcessingPhaseInfo, ProcessingPhaseTransferScratch,
      ProcessingPhaseProcess] ∧
    ¬ r.m.calledPhases.length = r.visited.length :=
  ⟨rfl, rfl, rfl, by decide⟩

/--
Claim C1 (amended): for every provider, the number of provider calls
recorded equals the number of phase transitions dispatched to
provider-backed phases (Info, TransferScratch, TransferDataDir,
TransferDataFile, Process) — Convert and Resize transitions delegate to
the disk tooling and record no provider call; and in the declared-order
runs, a provider declaring Info to TransferScratch to Process to Complete
records exactly the calls Info, TransferScratch, Process in that order
(equal to the dispatched trace) with Transfer receiving the scratch data
directory as its path, while the TransferDataDir variant records Info,
TransferDataDir, Process with Transfer receiving the working data
directory, not the scratch directory.  Directories, requested size,
adapter and (for the counting part) the whole provider are arbitrary.
-/
theorem c1_provider_calls_per_dispatch_and_transfer_paths
    (dest dataDir scratchDataDir size : String) (q : fakeQEMUOperations) (env : Env)
    (m : MockDataProvider) :
    (let r := (NewDataProcessor dest dataDir scratchDataDir size).ProcessData q env m
     r.m.calledPhases.length =
       m.calledPhases.length + (r.visited.filter providerPhase).length) ∧
    (let r := (NewDataProcessor dest dataDir scratchDataDir size).ProcessData q ⟨[]⟩
       (mkMock ProcessingPhaseTransferScratch ProcessingPhaseProcess ProcessingPhaseComplete false)
     r.outcome = RunOutcome.finished none ∧
     r.m.calledPhases =
       [ProcessingPhaseInfo, ProcessingPhaseTransferScratch, ProcessingPhaseProcess] ∧
     r.m.calledPhases = r.visited ∧
     r.m.transferPath = scratchDataDir) ∧
    (let r := (NewDataProcessor dest dataDir scratchDataDir size).ProcessData q ⟨[]⟩
       (mkMock ProcessingPhaseTransferDataDir ProcessingPhaseProcess ProcessingPhaseComplete false)
     r.outcome = RunOutcome.finished none ∧
     r.m.calledPhases =
       [ProcessingPhaseInfo, ProcessingPhaseTransferDataDir, ProcessingPhaseProcess] ∧
     r.m.calledPhases = r.visited ∧
     r.m.transferPath = dataDir) := by
  refine ⟨?_, ⟨rfl, rfl, rfl, rfl⟩, ⟨rfl, rfl, rfl, rfl⟩⟩
  have h := processLoop_calls q env (NewDataProcessor dest dataDir scratchDataDir size) 9 m
    ProcessingPhaseInfo none [] []
  simpa [DataProcessor.ProcessData] using h
